import Mathlib

/-!
Verification of the orchestration core of the YoutubeDL desktop utility
(`working_final.py`): URL allow-list matching (`is_supported_url`),
external-tool availability probing (`ffmpeg_available`, `ffprobe_available`),
and the download worker state machine (`DownloadWorker.run`), embedded
shallowly over lists of characters with the external world (filesystem,
extractor) given as explicit parameters.
-/

namespace YoutubeDL

/-! ## Python string primitives, modelled on `List Char` -/

/-- Lower-casing a string, as Python `str.lower` restricted to ASCII
(every character of the program's inputs under study is ASCII). -/
def lowerL (l : List Char) : List Char := l.map Char.toLower

/-- Python `str.strip()` with no argument: drop leading and trailing
whitespace. -/
def stripL (l : List Char) : List Char :=
  ((l.dropWhile Char.isWhitespace).reverse.dropWhile Char.isWhitespace).reverse

/-- Substring containment, Python's `needle in haystack` for strings. -/
def containsSub (needle : List Char) : List Char → Bool
  | [] => needle.isEmpty
  | c :: t => needle.isPrefixOf (c :: t) || containsSub needle t

/-- `url.lower().startswith(('http://', 'https://'))` applied to an
already-lowered character list. -/
def startsHttp (l : List Char) : Bool :=
  "http://".toList.isPrefixOf l || "https://".toList.isPrefixOf l

/-! ## `urllib.parse.urlparse` netloc extraction, modelled from CPython

`urlsplit` strips a scheme when the text before the first `:` starts with
an ASCII letter and consists of letters, digits, `+`, `-`, `.`; then the
netloc is the text after a leading `//`, up to the first `/`, `?` or `#`. -/

def isSchemeChar (c : Char) : Bool :=
  c.isAlpha || c.isDigit || c = '+' || c = '-' || c = '.'

/-- Remainder of the URL after removing a valid `scheme:` prefix, if any. -/
def dropScheme (l : List Char) : List Char :=
  let pre := l.takeWhile (fun c => c ≠ ':')
  if pre.length < l.length ∧ pre ≠ [] ∧
      (pre.headD ' ').isAlpha ∧ pre.all isSchemeChar then
    l.drop (pre.length + 1)
  else l

/-- `urlparse(u).netloc`: after the scheme, text between `//` and the first
`/`, `?` or `#`; empty when the remainder does not start with `//`. -/
def pyNetloc (l : List Char) : List Char :=
  let rest := dropScheme l
  if "//".toList.isPrefixOf rest then
    (rest.drop 2).takeWhile (fun c => c ≠ '/' ∧ c ≠ '?' ∧ c ≠ '#')
  else []

/-! ## `is_supported_url` (working_final.py lines 38-63) -/

/-- The normalised URL text: `'https://' + url` when the lowered URL does
not already start with `http://` or `https://`. -/
def urlToParse (url : List Char) : List Char :=
  if startsHttp (lowerL url) then url else "https://".toList ++ url

/-- The candidate host of a URL as the code computes it:
`(urlparse(url_to_parse).netloc or "").lower().strip()`. -/
def hostOf (url : List Char) : List Char :=
  stripL (lowerL (pyNetloc (urlToParse url)))

/-- The host fragment of one allow-list entry, as the loop body computes it:
strip and lower the entry, then `urlparse(s).netloc.lower() or s`. -/
def fragOf (entry : List Char) : List Char :=
  let s := lowerL (stripL entry)
  let n := lowerL (pyNetloc s)
  if n = [] then s else n

/-- One allow-list entry matches when the raw entry is non-empty (the
`if not s: continue` guard), its fragment is non-empty, and the fragment
is a substring of the candidate host. -/
def entryMatches (netloc entry : List Char) : Bool :=
  !entry.isEmpty && !(fragOf entry).isEmpty && containsSub (fragOf entry) netloc

/-- `is_supported_url(url, supported_sites)` (lines 38-63). The
`try/except: return True` wrapper never fires in this model because none of
the modelled operations raise. -/
def is_supported_url (url : List Char) (supported_sites : List (List Char)) : Bool :=
  if url.isEmpty then false
  else
    let utp := urlToParse url
    let netloc := hostOf url
    if netloc.isEmpty then startsHttp (lowerL utp)
    else if supported_sites.any (entryMatches netloc) then true
    else startsHttp (lowerL utp)

/-- Python call sites may pass `None` for the URL; `if not url` rejects it. -/
def is_supported_url_opt (url : Option (List Char)) (sites : List (List Char)) : Bool :=
  match url with
  | none => false
  | some u => is_supported_url u sites

/-! ## POSIX path primitives (`os.path`), modelled from CPython `posixpath` -/

/-- `os.path.basename`: the text after the last `/`. -/
def pyBasename (l : List Char) : List Char :=
  (l.reverse.takeWhile (fun c => c ≠ '/')).reverse

/-- `os.path.dirname`: everything up to the last `/`; trailing slashes are
stripped unless the head is all slashes. -/
def pyDirname (l : List Char) : List Char :=
  let tailLen := (l.reverse.takeWhile (fun c => c ≠ '/')).length
  let head := l.take (l.length - tailLen)
  if ¬head.isEmpty ∧ ¬head.all (fun c => c = '/') then
    (head.reverse.dropWhile (fun c => c = '/')).reverse
  else head

/-- `os.path.join(a, b)` for a second component without a leading slash
(every join in the program has that shape); the general rule is also kept:
an absolute `b` replaces `a`. -/
def pyJoin (a b : List Char) : List Char :=
  if "/".toList.isPrefixOf b then b
  else if a.isEmpty ∨ "/".toList.isSuffixOf a then a ++ b
  else a ++ "/".toList ++ b

/-! ## Filesystem and environment abstraction

The probes `os.path.isfile`, `os.path.isdir`, `os.access(-, X_OK)`,
`shutil.which` and the platform test are the program's only contact with the
outside world in the tool-availability code; they appear here as an explicit
record so the functions become pure. -/

structure FileSys where
  isFile : List Char → Bool
  isDir : List Char → Bool
  /-- `os.access(p, os.X_OK)` -/
  access : List Char → Bool
  /-- `shutil.which(name)` -/
  which : List Char → Option (List Char)
  /-- `sys.platform.startswith('win')` -/
  isWindows : Bool

/-- The candidate name looked up inside a directory:
`binary_name` plus `.exe` on Windows. -/
def FileSys.cand (fs : FileSys) (dir name : List Char) : List Char :=
  pyJoin dir name ++ (if fs.isWindows then ".exe".toList else [])

/-- The guard `ffmpeg_path and ffmpeg_path.strip() and
ffmpeg_path.lower() != 'ffmpeg'` shared by both availability probes. -/
def explicitPathGuard (p : List Char) : Bool :=
  ¬p.isEmpty && ¬(stripL p).isEmpty && lowerL p ≠ "ffmpeg".toList

/-- `ffmpeg_available(ffmpeg_path)` (working_final.py lines 65-89). Note the
directory branch: when the configured path is a directory that does not hold
an executable `ffmpeg[.exe]`, the function returns `false` immediately,
without the `shutil.which` fallback. -/
def ffmpeg_available (fs : FileSys) (ffmpeg_path : List Char) : Bool :=
  if explicitPathGuard ffmpeg_path then
    if fs.isFile (stripL ffmpeg_path) && fs.access (stripL ffmpeg_path) then true
    else if fs.isDir (stripL ffmpeg_path) then
      fs.isFile (fs.cand (stripL ffmpeg_path) "ffmpeg".toList) &&
        fs.access (fs.cand (stripL ffmpeg_path) "ffmpeg".toList)
    else
      if !(pyDirname (stripL ffmpeg_path)).isEmpty &&
          fs.isDir (pyDirname (stripL ffmpeg_path)) then
        if fs.isFile (fs.cand (pyDirname (stripL ffmpeg_path)) "ffmpeg".toList) &&
            fs.access (fs.cand (pyDirname (stripL ffmpeg_path)) "ffmpeg".toList) then
          true
        else (fs.which "ffmpeg".toList).isSome
      else (fs.which "ffmpeg".toList).isSome
  else (fs.which "ffmpeg".toList).isSome

/-- `ffprobe_available(ffmpeg_path)` (lines 91-112): looks for `ffprobe`
next to a configured file, inside a configured directory, and otherwise on
the search path; unlike `ffmpeg_available` every miss falls through to
`shutil.which`. -/
def ffprobe_available (fs : FileSys) (ffmpeg_path : List Char) : Bool :=
  if explicitPathGuard ffmpeg_path then
    if fs.isFile (stripL ffmpeg_path) &&
        (fs.isFile (fs.cand (pyDirname (stripL ffmpeg_path)) "ffprobe".toList) &&
         fs.access (fs.cand (pyDirname (stripL ffmpeg_path)) "ffprobe".toList)) then
      true
    else if fs.isDir (stripL ffmpeg_path) &&
        (fs.isFile (fs.cand (stripL ffmpeg_path) "ffprobe".toList) &&
         fs.access (fs.cand (stripL ffmpeg_path) "ffprobe".toList)) then
      true
    else (fs.which "ffprobe".toList).isSome
  else (fs.which "ffprobe".toList).isSome

/-! ## `DownloadWorker.run` (working_final.py lines 147-274)

The worker is embedded as a pure function of the job's fields and of an
explicit environment describing everything external: filesystem probes, the
extractor's outcome on the primary and on the retry invocation, template
expansion (`prepare_filename`), and the final existence check. The function
returns the terminal outcome together with the list of extractor download
invocations actually made, each recorded as the options it was given.
The diagnostic text of failures is abstracted to the exception messages:
Python tracebacks and the hook-message dump are opaque runtime artefacts. -/

/-- A character the sanitiser `re.sub(r'[<>:\"/\\|?*\x00-\x1f]', '_', -)`
replaces. -/
def badFsChar (c : Char) : Bool :=
  c = '<' || c = '>' || c = ':' || c = '"' || c = '/' || c = '\\' ||
  c = '|' || c = '?' || c = '*' || c.toNat ≤ 0x1f

/-- The `re.sub` call: each disallowed character becomes an underscore. -/
def sanitizeFs (l : List Char) : List Char :=
  l.map (fun c => if badFsChar c then '_' else c)

/-- Lines 150-155: the effective output filename. A truthy (non-empty)
manual filename is stripped, reduced to its base name, sanitised, and given
the `.%(ext)s` suffix when neither it nor the template mentions `%(ext)s`;
otherwise the template is used verbatim. -/
def composeFilename (filename_template manual_filename : List Char) : List Char :=
  if manual_filename.isEmpty then filename_template
  else
    let f := sanitizeFs (pyBasename (stripL manual_filename))
    if ¬containsSub "%(ext)s".toList f ∧
        ¬containsSub "%(ext)s".toList filename_template then
      f ++ ".%(ext)s".toList
    else f

/-- Lines 175-184: the `ffmpeg_location` option derived from an explicitly
configured ffmpeg path (note: the unstripped path is probed here). -/
def ffmpegLocation (fs : FileSys) (p : List Char) : Option (List Char) :=
  if explicitPathGuard p then
    if fs.isFile p then some (pyDirname p)
    else if fs.isDir p then some p
    else
      let maybeDir := pyDirname p
      if ¬maybeDir.isEmpty ∧ fs.isDir maybeDir then some maybeDir else none
  else none

/-- Lines 188-191: the Referer header is set exactly when the lowered URL
text contains `instagram.com`. -/
def refererFor (video_url : List Char) : Option (List Char) :=
  if containsSub "instagram.com".toList (lowerL video_url) then
    some "https://www.instagram.com/".toList
  else none

/-- The extractor options the worker builds (the fields of `ydl_opts` that
carry decision content; logger and progress hook are modelled separately). -/
structure YdlOpts where
  outtmpl : List Char
  format : List Char
  noplaylist : Bool
  cookiefile : Option (List Char)
  ffmpeg_location : Option (List Char)
  referer : Option (List Char)
  deriving Repr, DecidableEq

/-- One entry of the extractor's `requested_downloads` list, when it is a
dict; its `filepath` value when present and a string. -/
structure RDEntry where
  filepath : Option (List Char)
  deriving Repr, DecidableEq

/-- The metadata dict the extractor returns: the fields the worker reads.
`requested_downloads` is `none` when missing, `None`, or not a list; a
`none` element models a non-dict entry. -/
structure InfoDict where
  requested_downloads : Option (List (Option RDEntry))
  /-- the `_filename` key -/
  filenameInternal : Option (List Char)
  filename : Option (List Char)

/-- The constructor arguments of `DownloadWorker` (the unused `referer`
parameter is omitted: `run` never reads it). -/
structure Job where
  video_url : List Char
  ffmpeg_path : List Char
  directory : List Char
  filename_template : List Char
  manual_filename : List Char
  cookies_file : List Char

/-- Everything external the worker consults during one run. `primaryRes`
and `retryRes` are the extractor's behaviour on the primary and on the
retry `extract_info(url, download=True)` call; an `.ok none` models a
non-dict return value, an `.error e` a raised exception rendered as text. -/
structure Env where
  fs : FileSys
  /-- `os.path.exists` for the cookies check -/
  cookiesExists : List Char → Bool
  primaryRes : Except (List Char) (Option InfoDict)
  retryRes : Except (List Char) (Option InfoDict)
  /-- `YoutubeDL({'outtmpl': outtmpl}).prepare_filename(info)`; `.error`
  models a raised exception -/
  prepare : List Char → InfoDict → Except Unit (List Char)
  /-- `os.path.exists` for the saved-path check -/
  pathExists : List Char → Bool

/-- Terminal outcome: `success` is `download_complete` with an existing
path, `finishedNoPath` is `download_complete` with the generic message,
`failure` is `download_error`. -/
inductive Outcome where
  | success (path : List Char)
  | finishedNoPath (msg : List Char)
  | failure (err : List Char)
  deriving Repr, DecidableEq

/-- Python string truthiness for an optional string: a non-`None`,
non-empty value. -/
def strTruthy (o : Option (List Char)) : Bool :=
  match o with
  | some s => !s.isEmpty
  | none => false

/-- Python `a or b` on two optional strings: `b`'s value whenever `a` is
falsy. -/
def pyOrStr (a b : Option (List Char)) : Option (List Char) :=
  if strTruthy a then a else b

/-- Step (a) of path resolution: the `filepath` of the first
`requested_downloads` entry, when that list is present, non-empty, and its
first element is a dict. -/
def rdFilepath (d : InfoDict) : Option (List Char) :=
  match d.requested_downloads with
  | some (some first :: _) => first.filepath
  | _ => none

/-- Lines 245-263: resolve the saved file path from the returned metadata:
(a) `requested_downloads[0].filepath`, (b) `_filename or filename`,
(c) `prepare_filename` under the run's output template, whose exception is
swallowed, keeping the previous (falsy) value. -/
def resolveSavedPath (env : Env) (outtmpl : List Char) (info : Option InfoDict) :
    Option (List Char) :=
  let saved : Option (List Char) :=
    match info with
    | some d =>
      if strTruthy (rdFilepath d) then rdFilepath d
      else pyOrStr d.filenameInternal d.filename
    | none => none
  if strTruthy saved then saved
  else
    match info with
    | some d =>
      match env.prepare outtmpl d with
      | .ok s => some s
      | .error _ => saved
    | none => saved

/-- Lines 265-268: emit `success` when a truthy resolved path exists on
disk, otherwise the generic completion message. -/
def resolveOutcome (env : Env) (outtmpl directory : List Char)
    (info : Option InfoDict) : Outcome :=
  match resolveSavedPath env outtmpl info with
  | some s =>
    if !s.isEmpty && env.pathExists s then .success s
    else .finishedNoPath ("Download finished. Saved to ".toList ++ directory)
  | none => .finishedNoPath ("Download finished. Saved to ".toList ++ directory)

/-- The primary format selector (line 159). -/
def primaryFormat : List Char := "bestvideo+bestaudio/best".toList

/-- The relaxed retry format selector (line 229). -/
def retryFormat : List Char := "best".toList

/-- The output template of one run: destination directory joined with the
effective filename (line 156). -/
def outtmplOf (job : Job) : List Char :=
  pyJoin job.directory (composeFilename job.filename_template job.manual_filename)

/-- The `ydl_opts` of the primary attempt (lines 161-191, 209-210). -/
def buildOpts (env : Env) (job : Job) : YdlOpts :=
  { outtmpl := outtmplOf job
    format := primaryFormat
    noplaylist := true
    cookiefile := if ¬job.cookies_file.isEmpty then some job.cookies_file else none
    ffmpeg_location := ffmpegLocation env.fs job.ffmpeg_path
    referer := refererFor job.video_url }

/-- The retry options: a copy of the primary options with the relaxed
format (lines 228-229). -/
def retryOpts (env : Env) (job : Job) : YdlOpts :=
  { buildOpts env job with format := retryFormat }

/-- The message of the cookies validation failure (line 172), rendered by
the outer handler. -/
def cookiesMissingMsg (job : Job) : List Char :=
  "Exception: Cookies file not found: ".toList ++ job.cookies_file

/-- The message of the ffmpeg-unavailable failure (line 214). -/
def ffmpegMissingMsg : List Char :=
  "Exception: FFmpeg not found. A full FFmpeg build (with ffprobe) is required to merge audio and video.".toList

/-- The message of the ffprobe-unavailable failure (line 216). -/
def ffprobeMissingMsg : List Char :=
  "Exception: ffprobe (part of FFmpeg) not found. Required for postprocessing/merging.".toList

/-- The combined report when the retry also fails (lines 235-239),
concatenating both failure contexts. -/
def combinedFailureMsg (e e2 : List Char) : List Char :=
  "Primary error:\n".toList ++ e ++ "\n\nRetry error:\n".toList ++ e2

/-- `DownloadWorker.run`: the whole worker body, returning the terminal
outcome and the `extract_info(download=True)` invocations made, in order,
as the options passed to each. Raises inside the body reach the outer
`except` and become a `failure` outcome. -/
def runWorker (env : Env) (job : Job) : Outcome × List YdlOpts :=
  if ¬job.cookies_file.isEmpty ∧ ¬env.cookiesExists job.cookies_file then
    (.failure (cookiesMissingMsg job), [])
  else if ¬ffmpeg_available env.fs job.ffmpeg_path then
    (.failure ffmpegMissingMsg, [])
  else if ¬ffprobe_available env.fs job.ffmpeg_path then
    (.failure ffprobeMissingMsg, [])
  else
    match env.primaryRes with
    | .ok info =>
      (resolveOutcome env (outtmplOf job) job.directory info, [buildOpts env job])
    | .error e =>
      match env.retryRes with
      | .ok info =>
        (resolveOutcome env (outtmplOf job) job.directory info,
         [buildOpts env job, retryOpts env job])
      | .error e2 =>
        (.failure (combinedFailureMsg e e2), [buildOpts env job, retryOpts env job])

/-! ## The progress-hook diagnostic buffer (lines 200-207) -/

/-- One `progress_hook(d)` call: append the rendered event, then drop the
oldest entry when the buffer exceeds 200. -/
def progressHookStep (buf : List (List Char)) (d : List Char) :
    List (List Char) :=
  let b := buf ++ [d]
  if b.length > 200 then b.tail else b

/-- The buffer contents after a sequence of progress events, starting from
the empty `debug_messages` list. -/
def progressBuffer (events : List (List Char)) : List (List Char) :=
  events.foldl progressHookStep []

/-! ## Spec-side definitions, for refinement comparisons -/

/-- The alternatives of a yt-dlp format selector: `/`-separated fallback
clauses, tried left to right (glossary: "best video plus best audio" vs
"best single combined stream"). -/
def splitSlash : List Char → List (List Char)
  | [] => [[]]
  | c :: t =>
    if c = '/' then [] :: splitSlash t
    else
      match splitSlash t with
      | h :: r => (c :: h) :: r
      | [] => [[c]]

/-- The tool-resolution procedure exactly as the spec states it (4.2):
step 1 probes the configured path (executable file, then directory, then
parent directory); "otherwise, or if step 1 found nothing", step 2 searches
the system executable search path. -/
def specToolAvailable (fs : FileSys) (configured_path binary_name : List Char) :
    Bool :=
  let inDir (d : List Char) : Bool :=
    let c := fs.cand d binary_name
    fs.isFile c && fs.access c
  let step1 : Bool :=
    if ¬configured_path.isEmpty && lowerL configured_path ≠ lowerL binary_name then
      if fs.isFile configured_path && fs.access configured_path then true
      else if fs.isDir configured_path then inDir configured_path
      else inDir (pyDirname configured_path)
    else false
  step1 || (fs.which binary_name).isSome

/-- Filename sanitisation exactly as the spec states it: the disallowed
characters are stripped (removed), not replaced. -/
def specStripBad (l : List Char) : List Char := l.filter (fun c => ¬badFsChar c)

/-- The effective output path as the spec's Preparing step words it, with
stripping read as removal. -/
def specOuttmplStripped (dir template manual : List Char) : List Char :=
  let name :=
    if manual.isEmpty then template
    else
      let base := specStripBad (pyBasename (stripL manual))
      if containsSub "%(ext)s".toList base ∨ containsSub "%(ext)s".toList template
      then base
      else base ++ ".%(ext)s".toList
  pyJoin dir name

/-- The effective output path under the amended wording: disallowed
characters are replaced by `_`. -/
def specOuttmplUnderscored (dir template manual : List Char) : List Char :=
  let name :=
    if manual.isEmpty then template
    else
      let base := (pyBasename (stripL manual)).map
        (fun c => if badFsChar c then '_' else c)
      if containsSub "%(ext)s".toList base ∨ containsSub "%(ext)s".toList template
      then base
      else base ++ ".%(ext)s".toList
  pyJoin dir name

/-! ## Concrete fixtures for witnesses and counterexamples -/

/-- A filesystem where `/opt/tools` is a directory holding nothing, and the
search path has both binaries. -/
def fsDirMiss : FileSys :=
  { isFile := fun _ => false
    isDir := fun p => p = "/opt/tools".toList
    access := fun _ => false
    which := fun _ => some "/usr/bin/ffmpeg".toList
    isWindows := false }

/-- A filesystem with an executable `/usr/local/bin/ffmpeg` and an
executable `/usr/local/bin/ffprobe`, nothing on the search path. -/
def fsGood : FileSys :=
  { isFile := fun p =>
      p = "/usr/local/bin/ffmpeg".toList ∨ p = "/usr/local/bin/ffprobe".toList
    isDir := fun p => p = "/usr/local/bin".toList
    access := fun p =>
      p = "/usr/local/bin/ffmpeg".toList ∨ p = "/usr/local/bin/ffprobe".toList
    which := fun _ => none
    isWindows := false }

/-- A job with no manual filename, no cookies file, and an explicitly
configured ffmpeg binary. -/
def jobBase : Job :=
  { video_url := "https://youtu.be/dQw4w9WgXcQ".toList
    ffmpeg_path := "/usr/local/bin/ffmpeg".toList
    directory := "/home/u/Downloads".toList
    filename_template := "%(title)s [%(id)s].%(ext)s".toList
    manual_filename := []
    cookies_file := [] }

/-- Metadata whose first requested download reports an existing file. -/
def infoGood : InfoDict :=
  { requested_downloads := some [some { filepath := some "/home/u/Downloads/v [dQw4w9WgXcQ].mp4".toList }]
    filenameInternal := none
    filename := none }

/-- An environment where both extractor invocations fail. -/
def envBothFail : Env :=
  { fs := fsGood
    cookiesExists := fun _ => false
    primaryRes := .error "DownloadError: requested format not available".toList
    retryRes := .error "DownloadError: no formats".toList
    prepare := fun _ _ => .error ()
    pathExists := fun _ => false }

/-- An environment where the primary invocation succeeds. -/
def envPrimaryOk : Env :=
  { envBothFail with
    primaryRes := .ok (some infoGood)
    pathExists := fun p => p = "/home/u/Downloads/v [dQw4w9WgXcQ].mp4".toList }
/-- A filesystem with no files, directories or search-path entries. -/
def fsNone : FileSys :=
  { isFile := fun _ => false, isDir := fun _ => false,
    access := fun _ => false, which := fun _ => none, isWindows := false }

/-- A filesystem with an executable ffmpeg but no ffprobe anywhere. -/
def fsNoProbe : FileSys :=
  { isFile := fun p => p = "/usr/local/bin/ffmpeg".toList
    isDir := fun _ => false
    access := fun p => p = "/usr/local/bin/ffmpeg".toList
    which := fun _ => none
    isWindows := false }

/-- The base job with a configured cookies file. -/
def jobCookies : Job := { jobBase with cookies_file := "/home/u/cookies.txt".toList }

/-- An environment where no external tool resolves. -/
def envNoTools : Env := { envBothFail with fs := fsNone }

/-- An environment where ffmpeg resolves but ffprobe does not. -/
def envNoProbe : Env := { envBothFail with fs := fsNoProbe }
/-- The job from the base fixture with a manual filename containing a
disallowed character. -/
def jobManual : Job :=
  { jobBase with
    manual_filename := "a<b".toList
    filename_template := "%(title)s.%(ext)s".toList }

/-- The job from the base fixture whose URL mentions `instagram.com` only
in its query string, not in its host. -/
def jobQuery : Job :=
  { jobBase with video_url := "https://example.com/?u=instagram.com".toList }

end YoutubeDL

/-! ## Sanity examples -/

example : YoutubeDL.hostOf "https://music.youtube.com/watch?v=abc".toList
    = "music.youtube.com".toList := by decide

example : YoutubeDL.is_supported_url "example.com".toList [] = true := by decide

example : YoutubeDL.is_supported_url "music.youtube.com/watch".toList
    ["youtube.com".toList] = true := by decide

namespace YoutubeDL

/-- The normalised URL text always starts, lowered, with `http://` or
`https://`: either the original did, or `https://` was prepended. -/
theorem startsHttp_urlToParse (u : List Char) :
    startsHttp (lowerL (urlToParse u)) = true := by
  unfold urlToParse
  by_cases h : startsHttp (lowerL u) = true
  · rw [if_pos h]; exact h
  · rw [if_neg h]
    unfold lowerL
    rw [List.map_append]
    have hfix : ("https://".toList.map Char.toLower) = "https://".toList := by decide
    rw [hfix]
    unfold startsHttp
    have hpre : "https://".toList.isPrefixOf
        ("https://".toList ++ u.map Char.toLower) = true :=
      List.isPrefixOf_iff_prefix.mpr ⟨u.map Char.toLower, rfl⟩
    simp [hpre]

theorem fragOf_nil : fragOf [] = [] := by decide

end YoutubeDL

open YoutubeDL in
/-- Claim C10: for every allow-list, `is_supported_url` on an empty or
missing (`None`) URL returns `false`; the permissive fallbacks never apply
to an absent URL (and the function is total, so it never raises). -/
theorem empty_url_unsupported :
    ∀ sites : List (List Char),
      is_supported_url [] sites = false ∧ is_supported_url_opt none sites = false := by
  intro sites
  constructor <;> rfl

open YoutubeDL in
/-- Claim C7: an allow-list entry whose host fragment is a (case-insensitive)
substring of the URL's parsed host makes `is_supported_url` return `true`;
a URL without a scheme is normalised by prepending `https://`, so a bare
hostname with an empty allow-list is accepted through the scheme-prefix
fallback, e.g. `is_supported_url "example.com" [] = true`. -/
theorem allowlist_substring_match :
    (∀ u e : List Char, u ≠ [] → fragOf e ≠ [] →
        containsSub (fragOf e) (hostOf u) = true →
        is_supported_url u [e] = true) ∧
    (∀ u : List Char, u ≠ [] → startsHttp (lowerL u) = false →
        urlToParse u = "https://".toList ++ u ∧ is_supported_url u [] = true) ∧
    is_supported_url "example.com".toList [] = true := by
  refine ⟨?_, ?_, by decide⟩
  · intro u e hu hf hc
    have hne : ¬(u.isEmpty = true) := by
      simp only [List.isEmpty_iff]; exact hu
    unfold is_supported_url
    rw [if_neg hne]
    by_cases hn : (hostOf u).isEmpty = true
    · rw [if_pos hn]; exact startsHttp_urlToParse u
    · rw [if_neg hn]
      have he : e.isEmpty = false := by
        cases h : e.isEmpty
        · rfl
        · rw [List.isEmpty_iff.mp h] at hf
          exact absurd fragOf_nil hf
      have hfe : (fragOf e).isEmpty = false := by
        cases h : (fragOf e).isEmpty
        · rfl
        · exact absurd (List.isEmpty_iff.mp h) hf
      have hm : entryMatches (hostOf u) e = true := by
        unfold entryMatches
        rw [he, hfe, hc]
        rfl
      simp [hm]
  · intro u hu hs
    have hne : ¬(u.isEmpty = true) := by
      simp only [List.isEmpty_iff]; exact hu
    have hnorm : urlToParse u = "https://".toList ++ u := by
      unfold urlToParse; rw [if_neg (by simp [hs])]
    refine ⟨hnorm, ?_⟩
    unfold is_supported_url
    rw [if_neg hne]
    by_cases hn : (hostOf u).isEmpty = true
    · rw [if_pos hn]; exact startsHttp_urlToParse u
    · rw [if_neg hn]
      simp [startsHttp_urlToParse u]

open YoutubeDL in
/-- Witness for C7 at concrete inputs: `youtube.com` matches
`music.youtube.com/watch`, and a bare hostname passes with an empty
allow-list. -/
theorem allowlist_substring_match_witness :
    is_supported_url "music.youtube.com/watch".toList ["youtube.com".toList] = true ∧
    is_supported_url "example.com".toList [] = true :=
  ⟨allowlist_substring_match.1 _ _ (by decide) (by decide) (by decide),
   allowlist_substring_match.2.2⟩

open YoutubeDL in
/-- Claim C9: the diagnostic buffer is a bounded ring buffer: after any
sequence of progress events it holds exactly the most recent events, at
most 200 of them, the oldest entry being dropped whenever the bound would
be exceeded. -/
theorem progress_buffer_ring :
    ∀ events : List (List Char),
      progressBuffer events = events.drop (events.length - 200) ∧
      (progressBuffer events).length ≤ 200 := by
  intro events
  have key : progressBuffer events = events.drop (events.length - 200) := by
    induction events using List.reverseRecOn with
    | nil => rfl
    | append_singleton l a ih =>
      have hfold : progressBuffer (l ++ [a]) =
          progressHookStep (progressBuffer l) a :=
        List.foldl_concat progressHookStep [] a l
      rw [hfold, ih]
      unfold progressHookStep
      by_cases h : l.length ≤ 199
      · have h1 : l.length - 200 = 0 := by omega
        rw [h1, List.drop_zero]
        have hlen : (l ++ [a]).length = l.length + 1 := by
          simp [List.length_append]
        rw [if_neg (by rw [hlen]; omega)]
        have h2 : (l ++ [a]).length - 200 = 0 := by rw [hlen]; omega
        rw [h2, List.drop_zero]
      · have hge : 200 ≤ l.length := by omega
        have hblen : (l.drop (l.length - 200)).length = 200 := by
          rw [List.length_drop]; omega
        have hbne : l.drop (l.length - 200) ≠ [] := by
          intro hh; rw [hh] at hblen; simp at hblen
        have hcond : (l.drop (l.length - 200) ++ [a]).length > 200 := by
          simp [List.length_append, hblen]
        rw [if_pos hcond, List.tail_append_of_ne_nil hbne, List.tail_drop]
        have hlen : (l ++ [a]).length = l.length + 1 := by
          simp [List.length_append]
        rw [hlen]
        rw [List.drop_append_of_le_length (by omega : l.length + 1 - 200 ≤ l.length)]
        have : l.length - 200 + 1 = l.length + 1 - 200 := by omega
        rw [this]
  refine ⟨key, ?_⟩
  rw [key, List.length_drop]
  omega

namespace YoutubeDL

/-- Under passing validation and tool checks, the run is decided by the
extractor's primary and retry results. -/
theorem runWorker_eq_of_guards (env : Env) (job : Job)
    (hck : job.cookies_file.isEmpty = true ∨ env.cookiesExists job.cookies_file = true)
    (hf : ffmpeg_available env.fs job.ffmpeg_path = true)
    (hp : ffprobe_available env.fs job.ffmpeg_path = true) :
    runWorker env job =
      match env.primaryRes with
      | .ok info =>
        (resolveOutcome env (outtmplOf job) job.directory info, [buildOpts env job])
      | .error e =>
        match env.retryRes with
        | .ok info =>
          (resolveOutcome env (outtmplOf job) job.directory info,
           [buildOpts env job, retryOpts env job])
        | .error e2 =>
          (.failure (combinedFailureMsg e e2), [buildOpts env job, retryOpts env job]) := by
  unfold runWorker
  rw [if_neg (by rcases hck with h | h <;> simp [h])]
  rw [if_neg (by simp [hf])]
  rw [if_neg (by simp [hp])]

/-- Every extractor invocation of a run carries the run's output template,
disabled playlist expansion, the derived ffmpeg location and the derived
referer header. -/
theorem attempts_opts (env : Env) (job : Job) :
    ∀ o ∈ (runWorker env job).2,
      o.outtmpl = outtmplOf job ∧ o.noplaylist = true ∧
      o.referer = refererFor job.video_url ∧
      o.ffmpeg_location = ffmpegLocation env.fs job.ffmpeg_path := by
  intro o ho
  unfold runWorker at ho
  split at ho
  · simp at ho
  · split at ho
    · simp at ho
    · split at ho
      · simp at ho
      · split at ho
        · simp only [List.mem_singleton] at ho
          subst ho
          exact ⟨rfl, rfl, rfl, rfl⟩
        · split at ho
          · simp only [List.mem_cons, List.mem_singleton, List.not_mem_nil,
              or_false] at ho
            rcases ho with ho | ho <;> subst ho <;>
              exact ⟨rfl, rfl, rfl, rfl⟩
          · simp only [List.mem_cons, List.mem_singleton, List.not_mem_nil,
              or_false] at ho
            rcases ho with ho | ho <;> subst ho <;>
              exact ⟨rfl, rfl, rfl, rfl⟩

end YoutubeDL

open YoutubeDL in
/-- Claim C1: when validation and tool checks pass, a primary attempt that
raises is followed by exactly one retry with the relaxed `best` selector —
the invocation list is exactly `[primary, retry]`, so no further retries
occur — and when the retry also raises the run is a `failure` with both
contexts; a primary attempt that succeeds makes the run's invocation list
exactly `[primary]`, so the retry path is never invoked. -/
theorem retry_discipline (env : Env) (job : Job)
    (hck : job.cookies_file.isEmpty = true ∨ env.cookiesExists job.cookies_file = true)
    (hf : ffmpeg_available env.fs job.ffmpeg_path = true)
    (hp : ffprobe_available env.fs job.ffmpeg_path = true) :
    (∀ e, env.primaryRes = .error e →
       (runWorker env job).2.map YdlOpts.format = [primaryFormat, retryFormat] ∧
       ∀ e2, env.retryRes = .error e2 →
         (runWorker env job).1 = .failure (combinedFailureMsg e e2)) ∧
    (∀ i, env.primaryRes = .ok i →
       (runWorker env job).2.map YdlOpts.format = [primaryFormat]) := by
  rw [runWorker_eq_of_guards env job hck hf hp]
  constructor
  · intro e he
    rw [he]
    refine ⟨?_, ?_⟩
    · cases hr : env.retryRes <;> simp [buildOpts, retryOpts]
    · intro e2 he2
      rw [he2]
  · intro i hi
    rw [hi]
    simp [buildOpts]

open YoutubeDL in
/-- Witness for C1: a concrete run whose primary and retry attempts both
raise makes exactly the two invocations, primary then relaxed, and fails
with the combined report. -/
theorem retry_discipline_witness :
    (runWorker envBothFail jobBase).2.map YdlOpts.format = [primaryFormat, retryFormat] ∧
    (runWorker envBothFail jobBase).1 =
      .failure (combinedFailureMsg
        "DownloadError: requested format not available".toList
        "DownloadError: no formats".toList) := by
  have h := retry_discipline envBothFail jobBase (Or.inl (by decide))
    (by decide) (by decide)
  exact ⟨(h.1 _ rfl).1, (h.1 _ rfl).2 _ rfl⟩

open YoutubeDL in
/-- Counterexample to C2 as stated: the primary attempt's format selector
is `bestvideo+bestaudio/best`, whose alternatives include the single
pre-muxed `best` stream — so the primary policy is not "never a single
pre-muxed stream": when the merged clause is unavailable the selector
falls back to a pre-muxed stream. Shown on a concrete run. -/
theorem primary_policy_counterexample :
    (runWorker envPrimaryOk jobBase).2.map YdlOpts.format = [primaryFormat] ∧
    "best".toList ∈ splitSlash primaryFormat := by
  constructor
  · rfl
  · decide

open YoutubeDL in
/-- Claim C2, amended: every run's first extractor invocation uses the
fixed selector `bestvideo+bestaudio/best` — best video plus best audio,
merged, with the best single pre-muxed stream as fallback alternative —
and every invocation disables playlist expansion. -/
theorem primary_policy (env : Env) (job : Job)
    (hck : job.cookies_file.isEmpty = true ∨ env.cookiesExists job.cookies_file = true)
    (hf : ffmpeg_available env.fs job.ffmpeg_path = true)
    (hp : ffprobe_available env.fs job.ffmpeg_path = true) :
    ((runWorker env job).2.map YdlOpts.format = [primaryFormat] ∨
     (runWorker env job).2.map YdlOpts.format = [primaryFormat, retryFormat]) ∧
    (∀ o ∈ (runWorker env job).2, o.noplaylist = true) ∧
    splitSlash primaryFormat = ["bestvideo+bestaudio".toList, "best".toList] := by
  refine ⟨?_, fun o ho => (attempts_opts env job o ho).2.1, by decide⟩
  rw [runWorker_eq_of_guards env job hck hf hp]
  cases env.primaryRes with
  | ok i => exact Or.inl (by simp [buildOpts])
  | error e =>
    cases env.retryRes with
    | ok i => exact Or.inr (by simp [buildOpts, retryOpts])
    | error e2 => exact Or.inr (by simp [buildOpts, retryOpts])

open YoutubeDL in
/-- Witness for C2 (amended) at a concrete successful run. -/
theorem primary_policy_witness :
    ((runWorker envPrimaryOk jobBase).2.map YdlOpts.format = [primaryFormat] ∨
     (runWorker envPrimaryOk jobBase).2.map YdlOpts.format = [primaryFormat, retryFormat]) ∧
    splitSlash primaryFormat = ["bestvideo+bestaudio".toList, "best".toList] := by
  have h := primary_policy envPrimaryOk jobBase (Or.inl (by decide))
    (by decide) (by decide)
  exact ⟨h.1, h.2.2⟩

open YoutubeDL in
/-- Claim C4: a supplied but nonexistent cookies file, an unresolvable
ffmpeg, or an unresolvable ffprobe each turn the run directly into a
`failure` with the explanatory message, with an empty invocation list —
the extractor is never invoked. -/
theorem validation_short_circuit (env : Env) (job : Job) :
    (job.cookies_file.isEmpty = false → env.cookiesExists job.cookies_file = false →
       runWorker env job = (.failure (cookiesMissingMsg job), [])) ∧
    ((job.cookies_file.isEmpty = true ∨ env.cookiesExists job.cookies_file = true) →
       ffmpeg_available env.fs job.ffmpeg_path = false →
       runWorker env job = (.failure ffmpegMissingMsg, [])) ∧
    ((job.cookies_file.isEmpty = true ∨ env.cookiesExists job.cookies_file = true) →
       ffmpeg_available env.fs job.ffmpeg_path = true →
       ffprobe_available env.fs job.ffmpeg_path = false →
       runWorker env job = (.failure ffprobeMissingMsg, [])) := by
  refine ⟨?_, ?_, ?_⟩
  · intro h1 h2
    unfold runWorker
    rw [if_pos ⟨by simp [h1], by simp [h2]⟩]
  · intro hck hf
    unfold runWorker
    rw [if_neg (by rcases hck with h | h <;> simp [h])]
    rw [if_pos (by simp [hf])]
  · intro hck hf hp
    unfold runWorker
    rw [if_neg (by rcases hck with h | h <;> simp [h])]
    rw [if_neg (by simp [hf])]
    rw [if_pos (by simp [hp])]

open YoutubeDL in
/-- Witness for C4: concrete runs with a missing cookies file, with no
ffmpeg, and with ffmpeg but no ffprobe, each fail with no extractor
invocation. -/
theorem validation_short_circuit_witness :
    runWorker envBothFail jobCookies = (.failure (cookiesMissingMsg jobCookies), []) ∧
    runWorker envNoTools jobBase = (.failure ffmpegMissingMsg, []) ∧
    runWorker envNoProbe jobBase = (.failure ffprobeMissingMsg, []) := by
  refine ⟨(validation_short_circuit envBothFail jobCookies).1 (by decide) (by decide),
    (validation_short_circuit envNoTools jobBase).2.1 (Or.inl (by decide)) (by decide),
    (validation_short_circuit envNoProbe jobBase).2.2 (Or.inl (by decide))
      (by decide) (by decide)⟩

namespace YoutubeDL

/-- `resolveOutcome` when a path was resolved. -/
theorem resolveOutcome_some (env : Env) (t dir info s)
    (h : resolveSavedPath env t info = some s) :
    resolveOutcome env t dir info =
      if !s.isEmpty && env.pathExists s then .success s
      else .finishedNoPath ("Download finished. Saved to ".toList ++ dir) := by
  unfold resolveOutcome
  rw [h]

/-- `resolveOutcome` when no path was resolved. -/
theorem resolveOutcome_none (env : Env) (t dir info)
    (h : resolveSavedPath env t info = none) :
    resolveOutcome env t dir info =
      .finishedNoPath ("Download finished. Saved to ".toList ++ dir) := by
  unfold resolveOutcome
  rw [h]

end YoutubeDL

open YoutubeDL in
/-- Claim C5: after a successful attempt (primary or retry) the run's
outcome is decided by path resolution alone and is never a `failure`: the
saved path is taken first from `requested_downloads[0].filepath`, then from
`_filename or filename`, then from template reconstruction; a truthy path
that exists on disk yields `success` with that path, anything else yields
the generic "finished, check destination" message. -/
theorem resolution_after_success (env : Env) (job : Job)
    (hck : job.cookies_file.isEmpty = true ∨ env.cookiesExists job.cookies_file = true)
    (hf : ffmpeg_available env.fs job.ffmpeg_path = true)
    (hp : ffprobe_available env.fs job.ffmpeg_path = true)
    (info : Option InfoDict)
    (hok : env.primaryRes = .ok info ∨
           ((∃ e, env.primaryRes = .error e) ∧ env.retryRes = .ok info)) :
    (runWorker env job).1 = resolveOutcome env (outtmplOf job) job.directory info ∧
    (∀ err, resolveOutcome env (outtmplOf job) job.directory info ≠ .failure err) ∧
    (∀ s, resolveOutcome env (outtmplOf job) job.directory info = .success s →
       resolveSavedPath env (outtmplOf job) info = some s ∧ s ≠ [] ∧
       env.pathExists s = true) ∧
    (strTruthy (resolveSavedPath env (outtmplOf job) info) = false ∨
       env.pathExists ((resolveSavedPath env (outtmplOf job) info).getD []) = false →
       resolveOutcome env (outtmplOf job) job.directory info =
         .finishedNoPath ("Download finished. Saved to ".toList ++ job.directory)) ∧
    (∀ d : InfoDict, strTruthy (rdFilepath d) = true →
       resolveSavedPath env (outtmplOf job) (some d) = rdFilepath d) ∧
    (∀ d : InfoDict, strTruthy (rdFilepath d) = false →
       strTruthy (pyOrStr d.filenameInternal d.filename) = true →
       resolveSavedPath env (outtmplOf job) (some d) =
         pyOrStr d.filenameInternal d.filename) ∧
    (∀ d : InfoDict, strTruthy (rdFilepath d) = false →
       strTruthy (pyOrStr d.filenameInternal d.filename) = false →
       ∀ s, env.prepare (outtmplOf job) d = .ok s →
         resolveSavedPath env (outtmplOf job) (some d) = some s) := by
  refine ⟨?_, ?_, ?_, ?_, ?_, ?_, ?_⟩
  · rw [runWorker_eq_of_guards env job hck hf hp]
    rcases hok with h | ⟨⟨e, he⟩, hr⟩
    · rw [h]
    · rw [he, hr]
  · intro err
    cases hs : resolveSavedPath env (outtmplOf job) info with
    | none => rw [resolveOutcome_none env _ _ _ hs]; simp
    | some s' =>
      rw [resolveOutcome_some env _ _ _ _ hs]
      split <;> simp
  · intro s hsu
    cases hs : resolveSavedPath env (outtmplOf job) info with
    | none => rw [resolveOutcome_none env _ _ _ hs] at hsu; simp at hsu
    | some s' =>
      rw [resolveOutcome_some env _ _ _ _ hs] at hsu
      by_cases hc : (!s'.isEmpty && env.pathExists s') = true
      · rw [if_pos hc] at hsu
        cases hsu
        have h1 := (Bool.and_eq_true _ _).mp hc
        refine ⟨rfl, ?_, h1.2⟩
        have h2 := h1.1
        simp only [Bool.not_eq_true'] at h2
        exact fun hnil => by rw [hnil] at h2; simp at h2
      · rw [if_neg hc] at hsu
        cases hsu
  · intro hfalsy
    cases hs : resolveSavedPath env (outtmplOf job) info with
    | none => exact resolveOutcome_none env _ _ _ hs
    | some s' =>
      rw [resolveOutcome_some env _ _ _ _ hs]
      rw [hs] at hfalsy
      rcases hfalsy with h | h
      · have h2 : (!s'.isEmpty) = false := h
        rw [if_neg (by simp [h2])]
      · simp only [Option.getD_some] at h
        rw [if_neg (by simp [h])]
  · intro d h
    unfold resolveSavedPath
    simp [h]
  · intro d h1 h2
    unfold resolveSavedPath
    simp [h1, h2]
  · intro d h1 h2 s hprep
    unfold resolveSavedPath
    simp [h1, h2, hprep]

open YoutubeDL in
/-- Witness for C5: a concrete successful run resolves its saved path from
the first requested download and terminates in `success` with it. -/
theorem resolution_after_success_witness :
    (runWorker envPrimaryOk jobBase).1 =
      .success "/home/u/Downloads/v [dQw4w9WgXcQ].mp4".toList := by
  have h := resolution_after_success envPrimaryOk jobBase (Or.inl (by decide))
    (by decide) (by decide) (some infoGood) (Or.inl rfl)
  exact h.1.trans (by decide)

open YoutubeDL in
/-- Counterexample to C6 as stated: disallowed characters in an explicit
filename are not stripped (removed) — they are replaced by `_`. With
explicit name `a<b` the code produces `a_b`, while the claim's stripping
yields `ab`. -/
theorem effective_filename_counterexample :
    (runWorker envPrimaryOk jobManual).2.map YdlOpts.outtmpl =
      ["/home/u/Downloads/a_b".toList] ∧
    specOuttmplStripped jobManual.directory jobManual.filename_template
        jobManual.manual_filename = "/home/u/Downloads/ab".toList ∧
    "/home/u/Downloads/a_b".toList ≠ "/home/u/Downloads/ab".toList := by
  exact ⟨rfl, by decide, by decide⟩

open YoutubeDL in
/-- Claim C6, amended: the effective output name under an explicit filename
is its base name with disallowed characters replaced by `_` (not stripped),
extension placeholder appended if neither the name nor the template carries
one; with no explicit filename the template is used verbatim; the output
template is the destination directory joined with this filename, and every
extractor invocation of a run carries it. -/
theorem effective_filename_policy :
    (∀ d t m : List Char,
       pyJoin d (composeFilename t m) = specOuttmplUnderscored d t m) ∧
    (∀ env job, ∀ o ∈ (runWorker env job).2,
       o.outtmpl = specOuttmplUnderscored job.directory job.filename_template
         job.manual_filename) := by
  have key : ∀ d t m : List Char,
      pyJoin d (composeFilename t m) = specOuttmplUnderscored d t m := by
    intro d t m
    unfold composeFilename specOuttmplUnderscored
    by_cases hm : m.isEmpty = true
    · simp [hm]
    · simp only [hm, if_false]
      unfold sanitizeFs
      split_ifs with h1 h2 <;> simp_all
  refine ⟨key, ?_⟩
  intro env job o ho
  have h := (attempts_opts env job o ho).1
  rw [h]
  unfold outtmplOf
  exact key _ _ _

open YoutubeDL in
/-- Witness for C6 (amended): the concrete run's invocation carries the
amended effective output template. -/
theorem effective_filename_policy_witness :
    ((runWorker envPrimaryOk jobManual).2.headD
        (buildOpts envPrimaryOk jobManual)).outtmpl =
      specOuttmplUnderscored jobManual.directory jobManual.filename_template
        jobManual.manual_filename :=
  effective_filename_policy.2 envPrimaryOk jobManual _ (by decide)

open YoutubeDL in
/-- Counterexample to C8 as stated: a job whose URL mentions
`instagram.com` only in the query string — its host is `example.com` —
still gets the referer header injected, because the code tests the whole
URL text, not the host. -/
theorem referer_injection_counterexample :
    (runWorker envPrimaryOk jobQuery).2.map YdlOpts.referer =
      [some "https://www.instagram.com/".toList] ∧
    containsSub "instagram.com".toList (hostOf jobQuery.video_url) = false := by
  exact ⟨rfl, by decide⟩

open YoutubeDL in
/-- Claim C8, amended: the referer header
`https://www.instagram.com/` is injected into every extractor invocation of
a run exactly when the lowered URL text contains `instagram.com`; when it
does not, no invocation carries a referer header. -/
theorem referer_injection (env : Env) (job : Job) :
    ∀ o ∈ (runWorker env job).2,
      (containsSub "instagram.com".toList (lowerL job.video_url) = true →
         o.referer = some "https://www.instagram.com/".toList) ∧
      (containsSub "instagram.com".toList (lowerL job.video_url) = false →
         o.referer = none) := by
  intro o ho
  have h := (attempts_opts env job o ho).2.2.1
  constructor
  · intro hc
    rw [h]
    unfold refererFor
    rw [if_pos hc]
  · intro hc
    rw [h]
    unfold refererFor
    rw [if_neg (by rw [hc]; simp)]

open YoutubeDL in
/-- Witness for C8 (amended): the concrete query-string job's invocation
carries the referer header. -/
theorem referer_injection_witness :
    ((runWorker envPrimaryOk jobQuery).2.headD
        (buildOpts envPrimaryOk jobQuery)).referer =
      some "https://www.instagram.com/".toList :=
  (referer_injection envPrimaryOk jobQuery _ (by decide)).1 (by decide)

open YoutubeDL in
/-- Counterexample to C3 as stated: with a configured path that is a
directory not containing the binary, the spec's procedure falls back to the
system search path (where ffmpeg exists) and succeeds, but
`ffmpeg_available` returns `false` without consulting the search path. -/
theorem tool_resolution_counterexample :
    specToolAvailable fsDirMiss "/opt/tools".toList "ffmpeg".toList = true ∧
    ffmpeg_available fsDirMiss "/opt/tools".toList = false := by
  decide

open YoutubeDL in
/-- Claim C3, amended: with no explicitly configured path (unset, blank, or
the literal `ffmpeg`), both probes are decided by the system search path.
With one, `ffmpeg_available` succeeds on an executable file; on a directory
it is decided solely by the executable `ffmpeg[.exe]` inside — with no
search-path fallback on a miss; on any other path it tries the parent
directory and then the search path. `ffprobe_available` never succeeds on
the configured file itself: it looks for `ffprobe[.exe]` beside a
configured file or inside a configured directory, falling back to the
search path on every miss. -/
theorem tool_availability_resolution (fs : FileSys) (p : List Char) :
    (explicitPathGuard p = false →
       ffmpeg_available fs p = (fs.which "ffmpeg".toList).isSome ∧
       ffprobe_available fs p = (fs.which "ffprobe".toList).isSome) ∧
    (explicitPathGuard p = true →
       (fs.isFile (stripL p) && fs.access (stripL p)) = true →
       ffmpeg_available fs p = true) ∧
    (explicitPathGuard p = true →
       (fs.isFile (stripL p) && fs.access (stripL p)) = false →
       fs.isDir (stripL p) = true →
       ffmpeg_available fs p =
         (fs.isFile (fs.cand (stripL p) "ffmpeg".toList) &&
          fs.access (fs.cand (stripL p) "ffmpeg".toList))) ∧
    (explicitPathGuard p = true →
       (fs.isFile (stripL p) && fs.access (stripL p)) = false →
       fs.isDir (stripL p) = false →
       ffmpeg_available fs p =
         (((!(pyDirname (stripL p)).isEmpty && fs.isDir (pyDirname (stripL p))) &&
           (fs.isFile (fs.cand (pyDirname (stripL p)) "ffmpeg".toList) &&
            fs.access (fs.cand (pyDirname (stripL p)) "ffmpeg".toList))) ||
          (fs.which "ffmpeg".toList).isSome)) ∧
    (explicitPathGuard p = true →
       ffprobe_available fs p =
         ((fs.isFile (stripL p) &&
           (fs.isFile (fs.cand (pyDirname (stripL p)) "ffprobe".toList) &&
            fs.access (fs.cand (pyDirname (stripL p)) "ffprobe".toList))) ||
          ((fs.isDir (stripL p) &&
            (fs.isFile (fs.cand (stripL p) "ffprobe".toList) &&
             fs.access (fs.cand (stripL p) "ffprobe".toList))) ||
           (fs.which "ffprobe".toList).isSome))) := by
  refine ⟨?_, ?_, ?_, ?_, ?_⟩
  · intro hg
    unfold ffmpeg_available ffprobe_available
    constructor <;> rw [if_neg (by simp [hg])]
  · intro hg h2
    unfold ffmpeg_available
    rw [if_pos hg, if_pos h2]
  · intro hg h2 h3
    unfold ffmpeg_available
    rw [if_pos hg, if_neg (by simp [h2]), if_pos h3]
  · intro hg h2 h3
    unfold ffmpeg_available
    rw [if_pos hg, if_neg (by simp [h2]), if_neg (by simp [h3])]
    by_cases hAB : (!(pyDirname (stripL p)).isEmpty &&
        fs.isDir (pyDirname (stripL p))) = true
    · rw [if_pos hAB, hAB]
      by_cases hC : (fs.isFile (fs.cand (pyDirname (stripL p)) "ffmpeg".toList) &&
          fs.access (fs.cand (pyDirname (stripL p)) "ffmpeg".toList)) = true
      · rw [if_pos hC, hC]
        simp
      · rw [if_neg hC]
        simp only [Bool.not_eq_true] at hC
        rw [hC]
        simp
    · rw [if_neg hAB]
      simp only [Bool.not_eq_true] at hAB
      rw [hAB]
      simp
  · intro hg
    unfold ffprobe_available
    rw [if_pos hg]
    by_cases hA : (fs.isFile (stripL p) &&
        (fs.isFile (fs.cand (pyDirname (stripL p)) "ffprobe".toList) &&
         fs.access (fs.cand (pyDirname (stripL p)) "ffprobe".toList))) = true
    · rw [if_pos hA, hA]
      simp
    · rw [if_neg hA]
      simp only [Bool.not_eq_true] at hA
      rw [hA]
      by_cases hB : (fs.isDir (stripL p) &&
          (fs.isFile (fs.cand (stripL p) "ffprobe".toList) &&
           fs.access (fs.cand (stripL p) "ffprobe".toList))) = true
      · rw [if_pos hB, hB]
        simp
      · rw [if_neg hB]
        simp only [Bool.not_eq_true] at hB
        rw [hB]
        simp

open YoutubeDL in
/-- Witness for C3 (amended): on the concrete directory-miss filesystem,
ffmpeg resolution fails with no search-path fallback while ffprobe
resolution falls through to the search path and succeeds. -/
theorem tool_availability_resolution_witness :
    ffmpeg_available fsDirMiss "/opt/tools".toList = false ∧
    ffprobe_available fsDirMiss "/opt/tools".toList = true := by
  have h := tool_availability_resolution fsDirMiss "/opt/tools".toList
  exact ⟨(h.2.2.1 (by decide) (by decide) (by decide)).trans (by decide),
    (h.2.2.2.2 (by decide)).trans (by decide)⟩
